import Mathlib

/-!
# Verification of the clinical-trials microservice core

Shallow embedding of the translation-and-filtering client of the
clinical-trials microservice (Go), together with theorems settling the
frozen claims about it.

Embedding conventions:
* Go strings are Lean `String`; most character-level helpers work on
  `List Char` (the string's `data`).
* Go slices are Lean `List`; a `nil` slice is modelled as `[]` (the two
  are observationally equal everywhere the embedded code inspects them).
* Go `int` values that are known non-negative (ages, counts, HTTP status
  codes) are `Nat`; where `strconv.Atoi` overflow matters the int64
  bound is applied explicitly.
* Go `error` values produced with `fmt.Errorf` are the message strings;
  fallible operations return `Except String α`.
* The single outbound HTTP call of each operation is modelled by passing
  the upstream's response (status, body, decode outcome) as a value.
-/

namespace ClinicalTrials

/-! ## Character/string helpers shared by the embedded code -/

/-- Characters treated as white space by the embedding of
`strings.TrimSpace` (the source only ever feeds it ASCII age strings,
so the ASCII white-space set is faithful there). -/
def isSpaceChar (c : Char) : Bool :=
  c = ' ' || c = '\t' || c = '\n' || c = '\r'

/-- Embeds `strings.TrimSpace`: drop white space from both ends. -/
def trimSpaceL (l : List Char) : List Char :=
  ((l.dropWhile isSpaceChar).reverse.dropWhile isSpaceChar).reverse

/-- Embeds `strings.TrimSuffix`: remove `suf` once if it is a suffix. -/
def trimSuffixL (l suf : List Char) : List Char :=
  if suf.isSuffixOf l then l.take (l.length - suf.length) else l

/-- Embeds `strings.EqualFold` restricted to ASCII folding (the phase
tags compared in the source are ASCII enum strings). -/
def eqFold (a b : String) : Bool :=
  a.data.map Char.toLower == b.data.map Char.toLower

/-! ## `parseAgeYears` (internal/api/clinicaltrials.go lines 412-444) -/

/-- The loop of `parseAgeYears` that finds the first digit and collects
the maximal digit run starting there (`for i := 0; ...` with the inner
`for j := i; ...`). -/
def firstDigitRun : List Char → List Char
  | [] => []
  | c :: cs =>
    if c.isDigit then c :: cs.takeWhile Char.isDigit
    else firstDigitRun cs

/-- Numeric value of a digit run (the value `strconv.Atoi` computes). -/
def digitsVal (ds : List Char) : Nat :=
  ds.foldl (fun acc c => acc * 10 + (c.toNat - 48)) 0

/-- Largest Go `int` (int64); `strconv.Atoi` fails above it. -/
def maxGoInt : Nat := 9223372036854775807

/-- Common stripping prefix of `parseAgeYears`: TrimSpace, ToLower,
TrimSuffix "years"/"year"/"y" in that order, TrimSpace. -/
def stripAgeUnits (s : String) : List Char :=
  let l := trimSpaceL s.data
  let l := l.map Char.toLower
  let l := trimSuffixL l "years".data
  let l := trimSuffixL l "year".data
  let l := trimSuffixL l "y".data
  trimSpaceL l

/-- Embeds `parseAgeYears`: returns the value of the first digit run of
the stripped string, `0` when there is none or `strconv.Atoi` overflows. -/
def parseAgeYears (ageStr : String) : Nat :=
  if ageStr = "" then 0
  else
    match firstDigitRun (stripAgeUnits ageStr) with
    | [] => 0
    | ds => if digitsVal ds ≤ maxGoInt then digitsVal ds else 0

/-- Written from the spec's words for the age parser: after the same
stripping, read the LEADING digit run (the digit run at the very start
of the stripped string). Used to compare the spec's description with
the embedded source. -/
def parseAgeYearsLeadingSpec (ageStr : String) : Nat :=
  match (stripAgeUnits ageStr).takeWhile Char.isDigit with
  | [] => 0
  | ds => if digitsVal ds ≤ maxGoInt then digitsVal ds else 0

/-- The amended description: after stripping, read the FIRST maximal
digit run appearing anywhere in the string. -/
def parseAgeYearsFirstRunSpec (ageStr : String) : Nat :=
  match ((stripAgeUnits ageStr).dropWhile (fun c => !c.isDigit)).takeWhile Char.isDigit with
  | [] => 0
  | ds => if digitsVal ds ≤ maxGoInt then digitsVal ds else 0

/-! ## Phase filter (internal/api/clinicaltrials.go lines 383-410) -/

/-- Embeds `containsPhase`: case-insensitive membership. -/
def containsPhase (phases : List String) (phase : String) : Bool :=
  phases.any (fun p => eqFold p phase)

/-- Embeds `matchesPhaseFilter`. -/
def matchesPhaseFilter (trialPhases requestedPhases : List String) : Bool :=
  if trialPhases.isEmpty then containsPhase requestedPhases "NA"
  else trialPhases.any (fun trialPhase =>
    requestedPhases.any (fun requestedPhase => eqFold trialPhase requestedPhase))

/-! ## Age filter (internal/api/clinicaltrials.go lines 446-507) -/

/-- The guard logic of `matchesAgeFilter` on the already-parsed values
(the sequence of early `return` statements, flattened). -/
def matchesAgeFilterNat (trialMin trialMax reqMin reqMax : Nat) : Bool :=
  if reqMin = 0 ∧ reqMax = 0 then true
  else if trialMin = 0 ∧ trialMax = 0 then true
  else if reqMin > 0 ∧ trialMax > 0 ∧ trialMax < reqMin then false
  else if reqMin > 0 ∧ trialMin > 0 ∧ trialMin > reqMin then false
  else if reqMax > 0 ∧ trialMin > 0 ∧ trialMin > reqMax then false
  else if reqMax > 0 ∧ trialMax > 0 ∧ trialMax < reqMax then false
  else true

/-- Embeds `matchesAgeFilter` (parses the four strings, then applies the
guards). -/
def matchesAgeFilter (trialMinAge trialMaxAge requestedMinAge requestedMaxAge : String) : Bool :=
  matchesAgeFilterNat (parseAgeYears trialMinAge) (parseAgeYears trialMaxAge)
    (parseAgeYears requestedMinAge) (parseAgeYears requestedMaxAge)

/-- Range-overlap test on parsed age intervals, `0` meaning unbounded:
what the claim says `matchesAgeFilter` computes. -/
def ageIntervalsOverlap (trialMin trialMax reqMin reqMax : Nat) : Prop :=
  (reqMax = 0 ∨ trialMin = 0 ∨ trialMin ≤ reqMax) ∧
  (trialMax = 0 ∨ reqMin = 0 ∨ reqMin ≤ trialMax)

instance (a b c d : Nat) : Decidable (ageIntervalsOverlap a b c d) := by
  unfold ageIntervalsOverlap; infer_instance

/-- Endpoint-containment test, `0` meaning unspecified/unbounded: each
requested endpoint that is specified must lie inside the trial's age
interval.  This (together with the two unconditional-accept cases) is
what the guards actually compute. -/
def ageEndpointsContained (trialMin trialMax reqMin reqMax : Nat) : Prop :=
  (reqMin ≠ 0 → (trialMax ≠ 0 → reqMin ≤ trialMax) ∧ (trialMin ≠ 0 → trialMin ≤ reqMin)) ∧
  (reqMax ≠ 0 → (trialMin ≠ 0 → trialMin ≤ reqMax) ∧ (trialMax ≠ 0 → reqMax ≤ trialMax))

/-! ## Data model (internal/models/trial.go) -/

/-- models.Location. -/
structure Location where
  city : String := ""
  state : String := ""
  country : String := ""
  latitude : Float := 0
  longitude : Float := 0
  zipCode : String := ""
deriving Repr

/-- models.Eligibility. -/
structure Eligibility where
  minimumAge : String := ""
  maximumAge : String := ""
  gender : String := ""
  criteria : String := ""
deriving Repr

/-- models.Sponsor. -/
structure Sponsor where
  name : String := ""
  type : String := ""
  category : String := ""
deriving Repr

/-- models.Contact. -/
structure Contact where
  name : String := ""
  phone : String := ""
  email : String := ""
deriving Repr

/-- models.Trial (the `AdditionalData` map is never written by the
embedded code and is omitted). -/
structure Trial where
  nctId : String := ""
  title : String := ""
  status : String := ""
  phase : List String := []
  conditions : List String := []
  locations : List Location := []
  eligibility : Eligibility := {}
  sponsor : Sponsor := {}
  contacts : List Contact := []
  startDate : String := ""
  completionDate : String := ""
  briefSummary : String := ""
  detailedSummary : String := ""
  url : String := ""
  registry : String := ""
deriving Repr

/-- models.SearchRequest. -/
structure SearchRequest where
  query : String := ""
  status : List String := []
  phase : List String := []
  conditions : List String := []
  location : String := ""
  latitude : Float := 0
  longitude : Float := 0
  distance : Nat := 0
  minimumAge : String := ""
  maximumAge : String := ""
  pageSize : Nat := 0
  pageToken : String := ""
deriving Repr

/-- models.SearchResponse. -/
structure SearchResponse where
  trials : List Trial := []
  totalCount : Nat := 0
  nextPageToken : String := ""
  pageSize : Nat := 0
deriving Repr

/-! ## Upstream response schema (internal/api/clinicaltrials.go) -/

/-- The boolean-or-string raw JSON value of the upstream
`healthyVolunteers` field (`json.RawMessage` in the source). `null`
models an absent/empty raw message, `other` any raw JSON that decodes
neither as a bool nor as a string. -/
inductive RawJson where
  | null
  | bool (b : Bool)
  | str (s : String)
  | other
deriving Repr

/-- IdentificationModule. -/
structure IdentificationModule where
  nctId : String := ""
  briefTitle : String := ""
  officialTitle : String := ""
deriving Repr

/-- StartDateStruct. -/
structure StartDateStruct where
  date : String := ""
deriving Repr

/-- CompletionDateStruct. -/
structure CompletionDateStruct where
  date : String := ""
deriving Repr

/-- StatusModule. -/
structure StatusModule where
  overallStatus : String := ""
  startDateStruct : StartDateStruct := {}
  completionDateStruct : CompletionDateStruct := {}
deriving Repr

/-- DesignModule (nil slice modelled as `[]`). -/
structure DesignModule where
  phases : List String := []
deriving Repr

/-- ConditionsModule. -/
structure ConditionsModule where
  conditions : List String := []
deriving Repr

/-- EligibilityModule. -/
structure EligibilityModule where
  eligibilityCriteria : String := ""
  healthyVolunteers : RawJson := .null
  gender : String := ""
  minimumAge : String := ""
  maximumAge : String := ""
deriving Repr

/-- CentralContact. -/
structure CentralContact where
  name : String := ""
  phone : String := ""
  email : String := ""
deriving Repr

/-- Contacts. -/
structure Contacts where
  centralContacts : List CentralContact := []
deriving Repr

/-- GeoPoint. -/
structure GeoPoint where
  lat : Float := 0
  lon : Float := 0
deriving Repr

/-- LocationData. -/
structure LocationData where
  facility : String := ""
  city : String := ""
  state : String := ""
  zip : String := ""
  country : String := ""
  geoPoint : GeoPoint := {}
deriving Repr

/-- ContactsLocationsModule. -/
structure ContactsLocationsModule where
  contacts : Contacts := {}
  locations : List LocationData := []
deriving Repr

/-- DescriptionModule. -/
structure DescriptionModule where
  briefSummary : String := ""
  detailedDescription : String := ""
deriving Repr

/-- LeadSponsor. -/
structure LeadSponsor where
  name : String := ""
  class' : String := ""
deriving Repr

/-- SponsorCollaboratorsModule. -/
structure SponsorCollaboratorsModule where
  leadSponsor : LeadSponsor := {}
deriving Repr

/-- MiscInfoModule. -/
structure MiscInfoModule where
  sponsorCollaboratorsModule : SponsorCollaboratorsModule := {}
deriving Repr

/-- DerivedSection. -/
structure DerivedSection where
  miscInfoModule : MiscInfoModule := {}
deriving Repr

/-- ProtocolSection. -/
structure ProtocolSection where
  identificationModule : IdentificationModule := {}
  statusModule : StatusModule := {}
  designModule : DesignModule := {}
  conditionsModule : ConditionsModule := {}
  eligibilityModule : EligibilityModule := {}
  contactsLocationsModule : ContactsLocationsModule := {}
  descriptionModule : DescriptionModule := {}
  sponsorCollaboratorsModule : SponsorCollaboratorsModule := {}
deriving Repr

/-- StudyData. -/
structure StudyData where
  protocolSection : ProtocolSection := {}
  derivedSection : DerivedSection := {}
deriving Repr

/-- ClinicalTrialsGovResponse. -/
structure ClinicalTrialsGovResponse where
  studies : List StudyData := []
  nextPageToken : String := ""
  totalCount : Nat := 0
deriving Repr

/-- Embeds `getHealthyVolunteersString` (lines 244-263): empty raw
message → `""`; bool decodes first (`strconv.FormatBool`); then string;
otherwise `""`. -/
def getHealthyVolunteersString : RawJson → String
  | .null => ""
  | .bool b => if b then "true" else "false"
  | .str s => s
  | .other => ""

/-! ## Response conversion (internal/api/clinicaltrials.go lines 326-597) -/

/-- Embeds `convertStudyToTrial` (lines 510-597).  Go `nil`-slice checks
are modelled as `[]` checks and empty-string checks are kept as in the
source; in every such guard the guarded assignment writes the same zero
value the field already has, so the modelling is observationally exact. -/
def convertStudyToTrial (study : StudyData) : Trial :=
  let protocol := study.protocolSection
  let trial : Trial :=
    { nctId := protocol.identificationModule.nctId
      title := protocol.identificationModule.briefTitle
      status := protocol.statusModule.overallStatus
      registry := "clinicaltrials.gov"
      url := "https://clinicaltrials.gov/study/" ++ protocol.identificationModule.nctId }
  -- Phase
  let trial := if ¬ protocol.designModule.phases.isEmpty then
      { trial with phase := protocol.designModule.phases } else trial
  -- Conditions
  let trial := if ¬ protocol.conditionsModule.conditions.isEmpty then
      { trial with conditions := protocol.conditionsModule.conditions } else trial
  -- Dates
  let trial := if protocol.statusModule.startDateStruct.date ≠ "" then
      { trial with startDate := protocol.statusModule.startDateStruct.date } else trial
  let trial := if protocol.statusModule.completionDateStruct.date ≠ "" then
      { trial with completionDate := protocol.statusModule.completionDateStruct.date } else trial
  -- Eligibility
  let trial := if protocol.eligibilityModule.eligibilityCriteria ≠ "" then
      { trial with eligibility.criteria := protocol.eligibilityModule.eligibilityCriteria } else trial
  let trial := { trial with
      eligibility.minimumAge := protocol.eligibilityModule.minimumAge
      eligibility.maximumAge := protocol.eligibilityModule.maximumAge
      eligibility.gender := protocol.eligibilityModule.gender }
  -- Locations
  let trial := if ¬ protocol.contactsLocationsModule.locations.isEmpty then
      { trial with locations := protocol.contactsLocationsModule.locations.map (fun loc =>
          let location : Location :=
            { city := loc.city, state := loc.state, country := loc.country, zipCode := loc.zip }
          let location := if !(loc.geoPoint.lat == 0) then
              { location with latitude := loc.geoPoint.lat } else location
          let location := if !(loc.geoPoint.lon == 0) then
              { location with longitude := loc.geoPoint.lon } else location
          location) }
    else trial
  -- Contacts
  let trial := if ¬ protocol.contactsLocationsModule.contacts.centralContacts.isEmpty then
      { trial with contacts := (protocol.contactsLocationsModule.contacts.centralContacts.map
          (fun contact => { name := contact.name, phone := contact.phone, email := contact.email } : CentralContact → Contact)) }
    else trial
  -- Sponsor (from protocolSection, not derivedSection)
  let trial := if protocol.sponsorCollaboratorsModule.leadSponsor.name ≠ "" then
      { trial with sponsor :=
          { name := protocol.sponsorCollaboratorsModule.leadSponsor.name
            type := protocol.sponsorCollaboratorsModule.leadSponsor.class'
            category := protocol.sponsorCollaboratorsModule.leadSponsor.class' } }
    else trial
  -- Description
  let trial := if protocol.descriptionModule.briefSummary ≠ "" then
      { trial with briefSummary := protocol.descriptionModule.briefSummary } else trial
  let trial := if protocol.descriptionModule.detailedDescription ≠ "" then
      { trial with detailedSummary := protocol.descriptionModule.detailedDescription } else trial
  trial

/-- The predicate a converted record must pass to be kept by the loop of
`convertToSearchResponse`: active filters only. -/
def survivesFilters (req : SearchRequest) (trial : Trial) : Bool :=
  (req.phase.isEmpty || matchesPhaseFilter trial.phase req.phase) &&
  ((req.minimumAge == "" && req.maximumAge == "") ||
    matchesAgeFilter trial.eligibility.minimumAge trial.eligibility.maximumAge
      req.minimumAge req.maximumAge)

/-- Embeds `convertToSearchResponse` (lines 326-381): convert each
study, skip it when an active filter rejects it, and build the response
from the surviving list (`TotalCount` and `PageSize` are both
`len(trials)` in the source). -/
def convertToSearchResponse (apiResp : ClinicalTrialsGovResponse) (req : SearchRequest) :
    SearchResponse :=
  let trials := apiResp.studies.filterMap (fun study =>
    let trial := convertStudyToTrial study
    if req.phase ≠ [] ∧ matchesPhaseFilter trial.phase req.phase = false then none
    else if (req.minimumAge ≠ "" ∨ req.maximumAge ≠ "") ∧
        matchesAgeFilter trial.eligibility.minimumAge trial.eligibility.maximumAge
          req.minimumAge req.maximumAge = false then none
    else some trial)
  { trials := trials
    totalCount := trials.length
    nextPageToken := apiResp.nextPageToken
    pageSize := trials.length }

/-! ## Query-parameter translation (internal/api/clinicaltrials.go lines 124-174) -/

/-- The default condition expression substituted when the caller gives
neither conditions nor a free-text query. -/
def defaultSCIConditions : String :=
  "spinal cord injury OR quadriplegia OR tetraplegia OR paraplegia"

/-- Rendering of the geo filter `fmt.Sprintf("distance(%f,%f,%dmi)", ...)`.
The `%f` rendering of the coordinates is abstracted by `toString` (no
claim depends on the exact float formatting). -/
def geoFilterString (lat lon : Float) (distance : Nat) : String :=
  "distance(" ++ toString lat ++ "," ++ toString lon ++ "," ++ toString distance ++ "mi)"

/-- Embeds `buildQueryParams` as the ordered list of `params.Set` calls
(each key is set exactly once, so `url.Values` content is exactly this
association list). -/
def buildQueryParams (req : SearchRequest) : List (String × String) :=
  [("format", "json"),
   ("countTotal", "true"),
   ("query.cond",
     if ¬ req.conditions.isEmpty then String.intercalate " OR " req.conditions
     else if req.query ≠ "" then req.query
     else defaultSCIConditions),
   ("filter.overallStatus",
     if ¬ req.status.isEmpty then String.intercalate "," req.status
     else "RECRUITING,NOT_YET_RECRUITING")]
  ++ (if !(req.latitude == 0) && !(req.longitude == 0) then
        [("filter.geo", geoFilterString req.latitude req.longitude
            (if req.distance = 0 then 50 else req.distance))]
      else [])
  ++ [("pageSize", if req.pageSize > 0 then toString req.pageSize else "100")]
  ++ (if req.pageToken ≠ "" then [("pageToken", req.pageToken)] else [])

/-- Lookup of a parameter value in the built parameter list (what
`url.Values.Get` returns for a key that was `Set`). -/
def getParam : List (String × String) → String → Option String
  | [], _ => none
  | (k, v) :: rest, key => if k = key then some v else getParam rest key

/-! ## Orchestration of the two upstream operations
(internal/api/clinicaltrials.go lines 56-121 and 599-663)

Errors are the `fmt.Errorf` message strings.  Each Go function performs
exactly one `httpClient.Get`; the embedding passes the upstream's
response for that single call as a value (status code, raw body, and
the outcome JSON decoding would have on that body). -/

/-- The error message of `fmt.Errorf("rate limit exceeded: HTTP 429")`,
returned by both operations on upstream status 429. -/
def rateLimitErrMsg : String := "rate limit exceeded: HTTP 429"

/-- The generic upstream-failure message of
`fmt.Errorf("API returned status %d: %s", resp.StatusCode, body)`. -/
def upstreamErrMsg (status : Nat) (body : String) : String :=
  "API returned status " ++ toString status ++ ": " ++ body

/-- The not-found message of `fmt.Errorf("trial not found: %s", nctID)`. -/
def notFoundErrMsg (nctID : String) : String := "trial not found: " ++ nctID

/-- The decode-failure message of
`fmt.Errorf("failed to decode response: %w", err)`. -/
def decodeErrMsg (err : String) : String := "failed to decode response: " ++ err

/-- The upstream's answer to the search endpoint call: HTTP status, raw
body, and the outcome of decoding the body as a
`ClinicalTrialsGovResponse` (`Except.error e` carries the decoder's
error message). -/
structure SearchHttpResponse where
  status : Nat
  body : String
  decoded : Except String ClinicalTrialsGovResponse

/-- The upstream's answer to the single-record endpoint call (the body
decodes directly as a `StudyData`). -/
structure DetailHttpResponse where
  status : Nat
  body : String
  decoded : Except String StudyData

/-- Embeds the response handling of `SearchTrials` (lines 85-120): 429
first, then any other non-200 status, then decode, then conversion. -/
def searchTrialsHandle (req : SearchRequest) (resp : SearchHttpResponse) :
    Except String SearchResponse :=
  if resp.status = 429 then .error rateLimitErrMsg
  else if resp.status ≠ 200 then .error (upstreamErrMsg resp.status resp.body)
  else match resp.decoded with
    | .error e => .error (decodeErrMsg e)
    | .ok apiResponse => .ok (convertToSearchResponse apiResponse req)

/-- Embeds `SearchTrials`: the function throttles, performs one GET and
handles its response.  The list holds the responses the upstream would
give to successive calls; the empty list models a transport failure of
the single GET. -/
def searchTrials (req : SearchRequest) (responses : List SearchHttpResponse) :
    Except String SearchResponse :=
  match responses with
  | [] => .error "failed to make request: transport error"
  | resp :: _ => searchTrialsHandle req resp

/-- Embeds the response handling of `GetTrialDetails` (lines 629-662):
429 first, then every other non-200 status becomes the not-found
error, then decode, then conversion. -/
def getTrialDetailsHandle (nctID : String) (resp : DetailHttpResponse) :
    Except String Trial :=
  if resp.status = 429 then .error rateLimitErrMsg
  else if resp.status ≠ 200 then .error (notFoundErrMsg nctID)
  else match resp.decoded with
    | .error e => .error (decodeErrMsg e)
    | .ok studyData => .ok (convertStudyToTrial studyData)

/-- Embeds `GetTrialDetails` analogously to `searchTrials`. -/
def getTrialDetails (nctID : String) (responses : List DetailHttpResponse) :
    Except String Trial :=
  match responses with
  | [] => .error "failed to make request: transport error"
  | resp :: _ => getTrialDetailsHandle nctID resp

/-! ## Cache key generation (internal/cache/cache.go lines 54-84 and
unnamed handler file, `generateCacheKey`) -/

/-- The dynamic types the handler stores in the `map[string]interface{}`
passed to `cache.GenerateCacheKey` (`toString`'s type switch). -/
inductive CacheValue where
  | str (s : String)
  | strList (l : List String)
  | int (n : Nat)
  | float (f : Float)
  | other

/-- Comma-joining loop of `toString`'s `[]string` case. -/
def joinComma : List String → String
  | [] => ""
  | [s] => s
  | s :: rest => s ++ "," ++ joinComma rest

/-- Go `string(rune(v))` for a rune value `v`: the one-character string
of that code point, or the replacement character for an invalid rune. -/
def goStringOfRune (r : Int) : String :=
  if (0 ≤ r ∧ r < 0xD800) ∨ (0xDFFF < r ∧ r ≤ 0x10FFFF) then
    String.singleton (Char.ofNat r.toNat)
  else "�"

/-- Go conversion of an integer to `rune` (int32 wrap-around). -/
def runeOfInt (n : Int) : Int := ((n + 2 ^ 31) % 2 ^ 32) - 2 ^ 31

/-- Truncation of a float toward zero as Go's float-to-integer
conversion performs it (approximated through the saturating `toUInt64`
conversions; exact for the magnitudes a request can hold). -/
def floatTruncToInt (f : Float) : Int :=
  (f.toUInt64.toNat : Int) - ((-f).toUInt64.toNat : Int)

/-- Embeds `toString` of cache.go: the `interface{}` → string conversion
used for each cache-key segment.  Note the source converts numbers with
`string(rune(val))` — the character with that code point, not the
decimal rendering. -/
def toStringVal : CacheValue → String
  | .str s => s
  | .strList l => joinComma l
  | .int n => goStringOfRune (runeOfInt n)
  | .float f => goStringOfRune (runeOfInt (floatTruncToInt f))
  | .other => ""

/-- Embeds `GenerateCacheKey`.  The source iterates the `params` map
with `range`, whose iteration order Go leaves unspecified (and actively
randomizes); the embedding therefore takes the iteration sequence — the
map's entries in the order `range` happens to visit them — as input. -/
def GenerateCacheKey (base : String) (paramsInOrder : List (String × CacheValue)) : String :=
  paramsInOrder.foldl (fun key p => key ++ ":" ++ p.1 ++ "=" ++ toStringVal p.2) base

/-- Embeds the handler's `generateCacheKey` map content for a search
request (unnamed handler file, lines 271-290): the entries inserted
into the map, as the insertion-order list; `range` visits them in an
unspecified order. -/
def searchCacheParams (req : SearchRequest) : List (String × CacheValue) :=
  [("query", .str req.query),
   ("conditions", .strList req.conditions),
   ("status", .strList req.status),
   ("phase", .strList req.phase),
   ("page_token", .str req.pageToken),
   ("page_size", .int req.pageSize)]
  ++ (if !(req.latitude == 0) then [("lat", CacheValue.float req.latitude)] else [])
  ++ (if !(req.longitude == 0) then [("lon", CacheValue.float req.longitude)] else [])
  ++ (if req.distance ≠ 0 then [("distance", CacheValue.int req.distance)] else [])

/-! ## Helper lemmas shared by the claim theorems -/

/-- `String.append` acts as list append on the underlying data. -/
theorem stringDataAppend (a b : String) : (a ++ b).data = a.data ++ b.data := rfl

/-- The guard sequence of `matchesAgeFilterNat` accepts exactly when
both requested bounds are unspecified, both trial bounds are
unspecified, or each specified requested endpoint lies in the trial's
interval. -/
theorem matchesAgeFilterNat_iff (a b c d : Nat) :
    matchesAgeFilterNat a b c d = true ↔
      (c = 0 ∧ d = 0) ∨ (a = 0 ∧ b = 0) ∨ ageEndpointsContained a b c d := by
  unfold matchesAgeFilterNat ageEndpointsContained
  split_ifs with h1 h2 h3 h4 h5 h6 <;> simp <;> omega

/-- The digit-scan loop of `parseAgeYears` finds exactly the first
maximal digit run of the string. -/
theorem firstDigitRun_eq (l : List Char) :
    firstDigitRun l = (l.dropWhile (fun c => !c.isDigit)).takeWhile Char.isDigit := by
  induction l with
  | nil => rfl
  | cons c cs ih =>
    by_cases h : c.isDigit
    · simp [firstDigitRun, List.dropWhile_cons, List.takeWhile_cons, h]
    · simp [firstDigitRun, List.dropWhile_cons, h, ih]

/-- The `query.cond` parameter set by `buildQueryParams`, read back the
way `url.Values.Get` would read it. -/
theorem getParam_querycond (req : SearchRequest) :
    getParam (buildQueryParams req) "query.cond" =
      some (if ¬ req.conditions.isEmpty then String.intercalate " OR " req.conditions
            else if req.query ≠ "" then req.query
            else defaultSCIConditions) := by
  simp [buildQueryParams, getParam]

/-- The skip-guards of the conversion loop keep a record exactly when
`survivesFilters` holds. -/
theorem keep_iff (req : SearchRequest) (trial : Trial) :
    (if req.phase ≠ [] ∧ matchesPhaseFilter trial.phase req.phase = false then none
     else if (req.minimumAge ≠ "" ∨ req.maximumAge ≠ "") ∧
         matchesAgeFilter trial.eligibility.minimumAge trial.eligibility.maximumAge
           req.minimumAge req.maximumAge = false then none
     else some trial) =
      (if survivesFilters req trial then some trial else none) := by
  by_cases h1 : req.phase = [] <;>
  by_cases h2 : req.minimumAge = "" <;>
  by_cases h3 : req.maximumAge = "" <;>
  cases hm : matchesPhaseFilter trial.phase req.phase <;>
  cases ha : matchesAgeFilter trial.eligibility.minimumAge trial.eligibility.maximumAge
      req.minimumAge req.maximumAge <;>
  simp_all [survivesFilters]

/-- Length of a guarded `filterMap` equals the length of the
corresponding `filter`. -/
theorem length_filterMap_guard {α β : Type} (p : α → Bool) (g : α → β) :
    ∀ l : List α, (l.filterMap (fun a => if p a then some (g a) else none)).length =
      (l.filter p).length
  | [] => rfl
  | a :: l => by
    cases h : p a <;>
      simp [List.filterMap_cons, List.filter_cons, h, length_filterMap_guard p g l]

/-! ## Claim theorems -/

/-- Claim C1 (code bug).  The claim — and the spec — say the cache key
is a deterministic string built from the request's filter fields in a
fixed field order, so that the second of two byte-identical Search
calls is served from the cache with no throttle wait or upstream call.
The source builds the key by iterating a Go map (`for k, v := range
params` in `GenerateCacheKey`), whose iteration order Go leaves
unspecified and actively randomizes; this theorem shows two iteration
orders of the same two map entries (the `query` and `conditions` filter
fields of one request) yield different key strings, so the key is not
deterministic and the second call can miss the cache and go upstream. -/
theorem c1_cache_key_depends_on_iteration_order :
    GenerateCacheKey "search" [("query", .str "a"), ("conditions", .strList ["b"])] ≠
      GenerateCacheKey "search" [("conditions", .strList ["b"]), ("query", .str "a")] := by
  decide

/-- Claim C2, counterexample.  The claim says `matchesAgeFilter` accepts
exactly when the trial's age interval overlaps the requested interval:
trial interval [40, 60] and requested interval [30, 50] overlap, yet the
filter rejects (the guard `trialMin > reqMin` fires), so the claim is
false as stated. -/
theorem c2_overlap_counterexample :
    matchesAgeFilter "40" "60" "30" "50" = false ∧
      ageIntervalsOverlap (parseAgeYears "40") (parseAgeYears "60")
        (parseAgeYears "30") (parseAgeYears "50") := by
  decide

/-- Claim C2, amended.  For all age strings, `matchesAgeFilter` accepts
the trial exactly when both requested bounds parse to 0, or both trial
bounds parse to 0, or every specified requested endpoint lies within
the trial's parsed age interval (0 meaning unbounded) — an
endpoint-containment test, not a range-overlap test.  In particular a
trial whose both ages parse to 0 is always accepted (second
disjunct). -/
theorem c2_age_filter_is_endpoint_containment
    (trialMinAge trialMaxAge reqMinAge reqMaxAge : String) :
    matchesAgeFilter trialMinAge trialMaxAge reqMinAge reqMaxAge = true ↔
      ((parseAgeYears reqMinAge = 0 ∧ parseAgeYears reqMaxAge = 0) ∨
       (parseAgeYears trialMinAge = 0 ∧ parseAgeYears trialMaxAge = 0) ∨
       ageEndpointsContained (parseAgeYears trialMinAge) (parseAgeYears trialMaxAge)
         (parseAgeYears reqMinAge) (parseAgeYears reqMaxAge)) :=
  matchesAgeFilterNat_iff _ _ _ _

/-- Claim C3, counterexample.  Status 429 is a non-success upstream
status, yet `GetTrialDetails` surfaces it as the rate-limit error, not
as the not-found error, so "every non-success status yields the
not-found error" is false as stated. -/
theorem c3_429_counterexample :
    getTrialDetailsHandle "NCT00000000" ⟨429, "", .error ""⟩ ≠
      Except.error (notFoundErrMsg "NCT00000000") := by
  intro h
  exact absurd (Except.error.inj h) (by decide)

/-- Claim C3, amended.  For every upstream status other than 200 and
other than 429, `GetTrialDetails` returns the same not-found error —
whose message names only the requested id, not the status — and no
Trial. -/
theorem c3_not_found_for_other_statuses (nctID : String) (resp : DetailHttpResponse)
    (h200 : resp.status ≠ 200) (h429 : resp.status ≠ 429) :
    getTrialDetailsHandle nctID resp = .error (notFoundErrMsg nctID) := by
  simp [getTrialDetailsHandle, h200, h429]

/-- Witness for the amended claim C3 at status 404. -/
theorem c3_not_found_witness :
    getTrialDetailsHandle "NCT12345678" ⟨404, "not found", .error "eof"⟩ =
      .error (notFoundErrMsg "NCT12345678") :=
  c3_not_found_for_other_statuses "NCT12345678" ⟨404, "not found", .error "eof"⟩
    (by decide) (by decide)

/-- Claim C4.  When the caller supplies phase values, the phase
predicate keeps a trial with no phase tags exactly when the requested
list contains "NA" case-insensitively, and keeps a trial with phase
tags exactly when some tag case-insensitively equals some requested
phase. -/
theorem c4_phase_filter (trialPhases requestedPhases : List String)
    (_hreq : requestedPhases ≠ []) :
    matchesPhaseFilter trialPhases requestedPhases = true ↔
      (match trialPhases with
       | [] => ∃ p ∈ requestedPhases, eqFold p "NA" = true
       | _ :: _ => ∃ t ∈ trialPhases, ∃ p ∈ requestedPhases, eqFold t p = true) := by
  cases trialPhases <;> simp [matchesPhaseFilter, containsPhase, List.any_eq_true]

/-- Witness for claim C4 at the spec's example inputs. -/
theorem c4_phase_filter_witness :
    matchesPhaseFilter ["PHASE2"] ["PHASE2", "PHASE3"] = true :=
  (c4_phase_filter ["PHASE2"] ["PHASE2", "PHASE3"] (by decide)).mpr (by decide)

/-- Claim C5, counterexample.  The claim says the parser reads the
LEADING digit run after stripping the unit suffix; the source scans for
the FIRST digit run anywhere.  On "age 18" the stripped string has no
leading digit run (the claim's reading gives 0) yet the source returns
18, so the claim is false as stated. -/
theorem c5_leading_run_counterexample :
    parseAgeYears "age 18" = 18 ∧ parseAgeYearsLeadingSpec "age 18" = 0 ∧
      parseAgeYears "age 18" ≠ parseAgeYearsLeadingSpec "age 18" := by
  decide

/-- Claim C5, amended.  For every input string, `parseAgeYears` strips a
trailing unit word ("years"/"year"/"y", case-insensitive), reads the
first maximal digit run appearing anywhere in the stripped string as an
integer year count, and returns 0 for unparseable or absent values; in
particular "18 Years" parses to 18, "65" to 65, "" to 0, and "Y" alone
to 0. -/
theorem c5_parse_age_first_digit_run :
    (∀ s : String, parseAgeYears s = parseAgeYearsFirstRunSpec s) ∧
      parseAgeYears "18 Years" = 18 ∧ parseAgeYears "65" = 65 ∧
      parseAgeYears "" = 0 ∧ parseAgeYears "Y" = 0 := by
  refine ⟨fun s => ?_, by decide, by decide, by decide, by decide⟩
  by_cases hs : s = ""
  · subst hs; decide
  · unfold parseAgeYears parseAgeYearsFirstRunSpec
    rw [if_neg hs, firstDigitRun_eq]

/-- Claim C6.  The translated condition parameter equals the condition
terms joined by " OR " when conditions is non-empty (the free-text
query being ignored since the value does not mention it); otherwise the
free-text query verbatim when non-empty; otherwise the fixed default
SCI expression. -/
theorem c6_condition_param (req : SearchRequest) :
    (req.conditions ≠ [] →
      getParam (buildQueryParams req) "query.cond" =
        some (String.intercalate " OR " req.conditions)) ∧
    (req.conditions = [] → req.query ≠ "" →
      getParam (buildQueryParams req) "query.cond" = some req.query) ∧
    (req.conditions = [] → req.query = "" →
      getParam (buildQueryParams req) "query.cond" = some defaultSCIConditions) := by
  have h := getParam_querycond req
  refine ⟨?_, ?_, ?_⟩
  · intro hc
    cases hcl : req.conditions with
    | nil => exact absurd hcl hc
    | cons a l => rw [h, hcl]; simp
  · intro hc hq
    rw [h, hc]; simp [hq]
  · intro hc hq
    rw [h, hc]; simp [hq, defaultSCIConditions]

/-- Witness for claim C6: two condition terms are joined with " OR ". -/
theorem c6_condition_param_witness :
    getParam (buildQueryParams { conditions := ["spinal cord injury", "tetraplegia"] })
      "query.cond" = some (String.intercalate " OR " ["spinal cord injury", "tetraplegia"]) :=
  (c6_condition_param _).1 (by decide)

/-- Claim C7.  The response's `TotalCount` equals the number of records
surviving post-filtering, and never depends on the upstream's
total-matching-count field (replacing that field by anything leaves the
whole response unchanged). -/
theorem c7_total_count_is_filtered_count (apiResp : ClinicalTrialsGovResponse)
    (req : SearchRequest) (n : Nat) :
    (convertToSearchResponse apiResp req).totalCount =
      (apiResp.studies.filter
        (fun study => survivesFilters req (convertStudyToTrial study))).length ∧
    convertToSearchResponse { apiResp with totalCount := n } req =
      convertToSearchResponse apiResp req := by
  refine ⟨?_, rfl⟩
  show (apiResp.studies.filterMap _).length = _
  rw [List.filterMap_congr (fun study _ => keep_iff req (convertStudyToTrial study))]
  exact length_filterMap_guard _ _ apiResp.studies

/-- Claim C8.  Upstream status 429 is surfaced by both operations as
the rate-limit error; every other non-200 status of the search
operation is surfaced as the generic upstream-failure error, whose
message contains the status and the body; the two errors are distinct
for every status and body; and neither operation consults more than
the first upstream response — no silent retry. -/
theorem c8_rate_limit_error_distinct
    (req : SearchRequest) (sresp : SearchHttpResponse) (dresp : DetailHttpResponse)
    (nctID : String) (st : Nat) (body : String) :
    (sresp.status = 429 → searchTrialsHandle req sresp = .error rateLimitErrMsg) ∧
    (dresp.status = 429 → getTrialDetailsHandle nctID dresp = .error rateLimitErrMsg) ∧
    (∀ dec : Except String ClinicalTrialsGovResponse, st ≠ 200 → st ≠ 429 →
      searchTrialsHandle req ⟨st, body, dec⟩ = .error (upstreamErrMsg st body)) ∧
    rateLimitErrMsg ≠ upstreamErrMsg st body ∧
    (∃ l r, (upstreamErrMsg st body).data = l ++ (toString st).data ++ r) ∧
    (∃ l, (upstreamErrMsg st body).data = l ++ body.data) ∧
    (∀ rest rest' : List SearchHttpResponse,
      searchTrials req (sresp :: rest) = searchTrials req (sresp :: rest')) ∧
    (∀ rest rest' : List DetailHttpResponse,
      getTrialDetails nctID (dresp :: rest) = getTrialDetails nctID (dresp :: rest')) := by
  refine ⟨?_, ?_, ?_, ?_, ?_, ?_, fun _ _ => rfl, fun _ _ => rfl⟩
  · intro h; simp [searchTrialsHandle, h]
  · intro h; simp [getTrialDetailsHandle, h]
  · intro dec h200 h429; simp [searchTrialsHandle, h200, h429]
  · intro h
    have h2 : rateLimitErrMsg.data.head? = (upstreamErrMsg st body).data.head? := by rw [h]
    have h3 : (some 'r' : Option Char) = some 'A' := h2
    exact absurd h3 (by decide)
  · exact ⟨"API returned status ".data, (": " ++ body).data, by
      simp [upstreamErrMsg, stringDataAppend, List.append_assoc]⟩
  · exact ⟨("API returned status " ++ toString st ++ ": ").data, by
      simp [upstreamErrMsg, stringDataAppend, List.append_assoc]⟩

/-- Witness for claim C8: 429 on both endpoints, and a 503 with a body
on the search endpoint. -/
theorem c8_rate_limit_error_distinct_witness :
    searchTrialsHandle {} ⟨429, "", .error ""⟩ = .error rateLimitErrMsg ∧
    getTrialDetailsHandle "NCT05000000" ⟨429, "", .error ""⟩ = .error rateLimitErrMsg ∧
    searchTrialsHandle {} ⟨503, "service unavailable", .error ""⟩ =
      .error (upstreamErrMsg 503 "service unavailable") :=
  ⟨(c8_rate_limit_error_distinct {} ⟨429, "", .error ""⟩ ⟨429, "", .error ""⟩
      "NCT05000000" 503 "service unavailable").1 rfl,
   (c8_rate_limit_error_distinct {} ⟨429, "", .error ""⟩ ⟨429, "", .error ""⟩
      "NCT05000000" 503 "service unavailable").2.1 rfl,
   (c8_rate_limit_error_distinct {} ⟨429, "", .error ""⟩ ⟨429, "", .error ""⟩
      "NCT05000000" 503 "service unavailable").2.2.1 (.error "") (by decide) (by decide)⟩

/-- Claim C9.  Every built response satisfies
`PageSize = TotalCount = length of the Trials list`, and `PageSize`
never depends on the caller's requested page size. -/
theorem c9_page_size_is_filtered_count (apiResp : ClinicalTrialsGovResponse)
    (req : SearchRequest) :
    (convertToSearchResponse apiResp req).pageSize =
      (convertToSearchResponse apiResp req).trials.length ∧
    (convertToSearchResponse apiResp req).pageSize =
      (convertToSearchResponse apiResp req).totalCount ∧
    ∀ n : Nat, convertToSearchResponse apiResp { req with pageSize := n } =
      convertToSearchResponse apiResp req :=
  ⟨rfl, rfl, fun _ => rfl⟩

/-- Claim C10.  Two upstream study documents that differ only in the
eligibility `healthyVolunteers` raw value convert to identical Trials:
`convertStudyToTrial` never reads that field, so the string
`getHealthyVolunteersString` would normalize from it reaches no Trial
field. -/
theorem c10_healthy_volunteers_not_propagated (study : StudyData) (v v' : RawJson) :
    convertStudyToTrial { study with
        protocolSection.eligibilityModule.healthyVolunteers := v } =
      convertStudyToTrial { study with
        protocolSection.eligibilityModule.healthyVolunteers := v' } :=
  rfl

end ClinicalTrials
